import Mathlib

/-
Shallow embedding of the mcp_marketing_collection handlers
(src/mcp_marketing_collection/mcp_marketing_collection.py and, for the
schema cache, MCPMarketingCollection._fetch_graphql_schema).

Modelling conventions:
* Python dict arguments become structures whose fields are Option-typed;
  a field that is `none` models an absent key (present-with-None is not
  distinguished except where a handler uses `.get`, which yields None in
  both cases).
* Python truthiness checks (`if arguments.get(k):`) are modelled
  explicitly: an empty string and the number 0 are falsy.
* Python floats (latitude, longitude) are modelled as Int, since the
  handlers only pass them through and test truthiness.
* The remote GraphQL backend is an oracle: a structure of functions
  giving the response of each query/mutation.  Each handler returns the
  pair of its result (`Except Err` for the fallible paths, mirroring
  Python exceptions: KeyError, AssertionError, IndexError) and the list
  of GraphQL calls it issued, in order.
* `humps.decamelize` is modelled by letting the oracle already return
  snake_case records; the handlers never consult a camelCase field.
* `result["placeList"]["total"] > 0` style checks are modelled by
  pattern matching on the returned list, taking `total` to be the length
  of the returned list (the backend reports a consistent count).
-/

namespace MCPMarketing

/-- Python exceptions that the handlers can raise before or instead of
returning: a raw dict-key fault, an assert failure, or a list-index
fault. -/
inductive Err where
  | keyError (field : String)
  | assertionError (msg : String)
  | indexError
deriving DecidableEq

/-- Variables of the placeList location query: the four required
location arguments of get_place. -/
structure LocVars where
  region : String
  latitude : Int
  longitude : Int
  address : String
deriving DecidableEq

/-- Variables of the insertUpdatePlace mutation, as assembled by
get_place: the location fields, the placeUuid key (present only when a
location match existed), the business fields and updatedBy. -/
structure PlaceUpsertVars where
  region : String
  latitude : Int
  longitude : Int
  address : String
  placeUuid : Option String
  businessName : Option String
  phoneNumber : Option String
  website : Option String
  types : List String
  updatedBy : String
deriving DecidableEq

/-- Variables of the insertUpdateContactProfile mutation as assembled by
get_contact_profile (contactUuid present only when a record was found by
email). -/
structure ContactUpsertVars where
  email : String
  contactUuid : Option String
  firstName : String
  lastName : String
  placeUuid : Option String
  updatedBy : String
deriving DecidableEq

/-- JSON values occurring in the data_collect dataset.  Arrays are
arrays of strings, since the handler joins list values with a comma and
a space, which in Python requires string elements. -/
inductive JVal where
  | s (v : String)
  | n (v : Int)
  | b (v : Bool)
  | null
  | arr (v : List String)
deriving DecidableEq

/-- Variables of the insertUpdateContactProfile mutation as assembled by
data_collect: the four popped fields (whatever JSON value they held),
the residual dataset as the opaque data payload, the optional
contactUuid and updatedBy. -/
structure DataCollectVars where
  placeUuid : Option JVal
  email : Option JVal
  firstName : Option JVal
  lastName : Option JVal
  data : List (String × JVal)
  contactUuid : Option String
  updatedBy : String
deriving DecidableEq

/-- Variables of the insertUpdateContactRequest mutation assembled by
submit_request. -/
structure RequestVars where
  placeUuid : String
  contactUuid : String
  requestTitle : String
  requestDetail : String
  updatedBy : String
deriving DecidableEq

/-- An address mapping as accepted by the Shopify-facing handlers; every
key is optional. -/
structure Address where
  place_uuid : Option String
  address1 : Option String
  address2 : Option String
  city : Option String
  province_code : Option String
  province : Option String
  zip : Option String
  country : Option String
  country_code : Option String
  company : Option String
  first_name : Option String
  last_name : Option String
  phone : Option String
deriving DecidableEq

/-- The address sub-dict that get_shopify_customer builds for the
customer query: the twelve listed keys, without place_uuid. -/
structure CustomerAddress where
  address1 : Option String
  address2 : Option String
  city : Option String
  province_code : Option String
  province : Option String
  zip : Option String
  country : Option String
  country_code : Option String
  company : Option String
  first_name : Option String
  last_name : Option String
  phone : Option String
deriving DecidableEq

/-- Builds the customer-query address sub-dict from an input address. -/
def mkCustomerAddress (a : Address) : CustomerAddress :=
  ⟨a.address1, a.address2, a.city, a.province_code, a.province, a.zip,
   a.country, a.country_code, a.company, a.first_name, a.last_name, a.phone⟩

/-- Variables of the Shopify customer query.  The source writes the last
name under the dict key "LastName" (capital L, as in the code); the key
spelling does not matter to the claims, so the field is named lastName
here. -/
structure CustomerVars where
  shop : Option String
  email : String
  firstName : Option String
  lastName : Option String
  phone : Option String
  address : Option CustomerAddress
deriving DecidableEq

/-- A line item of a Shopify draft order, after digit extraction. -/
structure LineItem where
  variant_id : String
  quantity : Int
deriving DecidableEq

/-- Variables of the createDraftOrder mutation. -/
structure DraftOrderVars where
  shop : Option String
  email : String
  lineItems : List LineItem
  shippingAddress : Option Address
  billingAddress : Option Address
deriving DecidableEq

/-- One GraphQL call issued by a handler, tagged by operation, with the
variables the handler put into it.  data_collect issues the
contactProfileList query keyed by an arbitrary JSON value (the popped
email), hence the separate constructor. -/
inductive GqlCall where
  | placeQuery (placeUuid : String)
  | placeListQuery (v : LocVars)
  | insertUpdatePlace (v : PlaceUpsertVars)
  | contactProfileListQuery (email : String)
  | contactProfileListQueryJ (email : Option JVal)
  | insertUpdateContactProfile (v : ContactUpsertVars)
  | insertUpdateContactProfileData (v : DataCollectVars)
  | insertUpdateContactRequest (v : RequestVars)
  | createDraftOrder (v : DraftOrderVars)
  | customerQuery (v : CustomerVars)
  | questionGroupByPlaceQuery (placeUuid : String)
  | questionGroupWildcardQuery (placeUuid : String)
deriving DecidableEq

/-- Whether a call is a GraphQL mutation (an upsert or create). -/
def GqlCall.isMutation : GqlCall → Bool
  | .insertUpdatePlace _ => true
  | .insertUpdateContactProfile _ => true
  | .insertUpdateContactProfileData _ => true
  | .insertUpdateContactRequest _ => true
  | .createDraftOrder _ => true
  | _ => false

/-- Python string comparison: lexicographic by code point, modelled on
the underlying character lists (whose order is lexicographic by the
character code point). -/
def pyStrLe (a b : String) : Prop := a.data ≤ b.data

instance pyStrLe.decRel : DecidableRel pyStrLe :=
  fun a b => (inferInstance : Decidable (a.data ≤ b.data))

instance pyStrLe.isTotal : IsTotal String pyStrLe :=
  ⟨fun a b => le_total a.data b.data⟩

instance pyStrLe.isTrans : IsTrans String pyStrLe :=
  ⟨fun _ _ _ h1 h2 => le_trans h1 h2⟩

instance pyStrLe.isAntisymm : IsAntisymm String pyStrLe :=
  ⟨fun _ _ h1 h2 => congrArg String.mk (le_antisymm h1 h2)⟩

/-- Python sorted on a list of strings, as used by get_place to compare
the types lists order-insensitively. -/
def pySorted (l : List String) : List String :=
  List.insertionSort pyStrLe l

/-- The decamelized place record as returned by the backend; only the
fields get_place reads are modelled.  A missing key is none
(place.get with default). -/
structure PlaceRec where
  place_uuid : String
  business_name : Option String
  phone_number : Option String
  website : Option String
  types : Option (List String)
deriving DecidableEq

/-- The argument mapping of get_place; every key may be absent. -/
structure PlaceArgs where
  place_uuid : Option String
  region : Option String
  latitude : Option Int
  longitude : Option Int
  address : Option String
  business_name : Option String
  phone_number : Option String
  website : Option String
  types : Option (List String)
deriving DecidableEq

/-- The ai_marketing_graphql backend as seen by get_place: responses of
the place query, the placeList query and the insertUpdatePlace
mutation. -/
structure PlaceBackend where
  placeByUuid : String → PlaceRec
  placeList : LocVars → List PlaceRec
  upsertResult : PlaceUpsertVars → PlaceRec

/-- The location branch of get_place: the assert on the four location
arguments (Python truthiness: absent, empty string, or zero fails),
the placeList query, the field comparison against the first match
(sorted types lists), and the insertUpdatePlace mutation. -/
def get_place_loc (args : PlaceArgs) (be : PlaceBackend) :
    Except Err PlaceRec × List GqlCall :=
  match args.region, args.latitude, args.longitude, args.address with
  | some r, some la, some lo, some ad =>
    if r != "" && la != 0 && lo != 0 && ad != "" then
      let lv : LocVars := ⟨r, la, lo, ad⟩
      match be.placeList lv with
      | p :: _ =>
        if p.business_name == args.business_name
            && p.phone_number == args.phone_number
            && p.website == args.website
            && pySorted (p.types.getD []) == pySorted (args.types.getD []) then
          (.ok p, [.placeListQuery lv])
        else
          let uv : PlaceUpsertVars := ⟨r, la, lo, ad, some p.place_uuid,
            args.business_name, args.phone_number, args.website,
            args.types.getD [], "Admin"⟩
          (.ok (be.upsertResult uv), [.placeListQuery lv, .insertUpdatePlace uv])
      | [] =>
        let uv : PlaceUpsertVars := ⟨r, la, lo, ad, none,
          args.business_name, args.phone_number, args.website,
          args.types.getD [], "Admin"⟩
        (.ok (be.upsertResult uv), [.placeListQuery lv, .insertUpdatePlace uv])
    else (.error (.assertionError "Missing required arguments"), [])
  | _, _, _, _ => (.error (.assertionError "Missing required arguments"), [])

/-- MCPMarketingCollection.get_place: fetch by UUID when the place_uuid
argument is truthy, otherwise the location branch. -/
def get_place (args : PlaceArgs) (be : PlaceBackend) :
    Except Err PlaceRec × List GqlCall :=
  match args.place_uuid with
  | some u =>
    if u != "" then (.ok (be.placeByUuid u), [.placeQuery u])
    else get_place_loc args be
  | none => get_place_loc args be

/-- The contact argument mapping: email plus optional keys.  A field
that is none models an absent key; indexing an absent key
(contact with square brackets in the source) raises KeyError. -/
structure Contact where
  email : String
  first_name : Option String
  last_name : Option String
  phone : Option String
deriving DecidableEq

/-- The place argument mapping of get_contact_profile. -/
structure ContactPlaceArg where
  place_uuid : Option String
deriving DecidableEq

/-- The place sub-record of a stored contact profile; the source indexes
contact_profile with the key place unconditionally, so the sub-record is
a plain field, with an optional place_uuid inside. -/
structure StoredPlaceRef where
  place_uuid : Option String
deriving DecidableEq

/-- The decamelized contact profile record returned by the backend; only
the fields the handlers read are modelled. -/
structure ContactProfileRec where
  contact_uuid : String
  first_name : Option String
  last_name : Option String
  place : StoredPlaceRef
deriving DecidableEq

/-- The ai_marketing_graphql backend as seen by get_contact_profile. -/
structure ContactBackend where
  contactProfileList : String → List ContactProfileRec
  upsertResult : ContactUpsertVars → ContactProfileRec

/-- MCPMarketingCollection.get_contact_profile: query by email; when a
record is found compare first_name, last_name and the associated
place_uuid and return the record unchanged if all equal; otherwise
upsert, carrying contactUuid when a record was found.  The source
indexes contact with the keys first_name and last_name (square
brackets), both when comparing and when building the mutation
variables, so an absent key raises KeyError (first_name is indexed
first in both spots). -/
def get_contact_profile (contact : Contact) (placeArg : Option ContactPlaceArg)
    (be : ContactBackend) : Except Err ContactProfileRec × List GqlCall :=
  let place := placeArg.getD ⟨none⟩
  let qCall := GqlCall.contactProfileListQuery contact.email
  match be.contactProfileList contact.email with
  | cp :: _ =>
    match contact.first_name, contact.last_name with
    | some fn, some ln =>
      if cp.first_name == some fn && cp.last_name == some ln
          && cp.place.place_uuid == place.place_uuid then
        (.ok cp, [qCall])
      else
        let v : ContactUpsertVars :=
          ⟨contact.email, some cp.contact_uuid, fn, ln, place.place_uuid, "Admin"⟩
        (.ok (be.upsertResult v), [qCall, .insertUpdateContactProfile v])
    | none, _ => (.error (.keyError "first_name"), [qCall])
    | some _, none => (.error (.keyError "last_name"), [qCall])
  | [] =>
    match contact.first_name, contact.last_name with
    | some fn, some ln =>
      let v : ContactUpsertVars :=
        ⟨contact.email, none, fn, ln, place.place_uuid, "Admin"⟩
      (.ok (be.upsertResult v), [qCall, .insertUpdateContactProfile v])
    | none, _ => (.error (.keyError "first_name"), [qCall])
    | some _, none => (.error (.keyError "last_name"), [qCall])

/-- The handler settings read by data_collect; none models an absent
setting, read through .get with the documented default. -/
structure DCSetting where
  sales_rep : Option String
  sales_rep_email : Option String
deriving DecidableEq

/-- Python join of a list of strings with a comma and a space. -/
def joinList (xs : List String) : String := String.intercalate ", " xs

/-- The dict comprehension of data_collect: drop entries whose value is
None, and replace list values by their comma-space join. -/
def transformDataset (m : List (String × JVal)) : List (String × JVal) :=
  (m.filter (fun p => p.2 != JVal.null)).map (fun p =>
    match p.2 with
    | .arr xs => (p.1, .s (joinList xs))
    | v => (p.1, v))

/-- Python dict.pop with default None: the looked-up value and the dict
without the key.  Parsed JSON objects have unique keys, so removing
every entry with the key agrees with removing the single entry. -/
def popKey (m : List (String × JVal)) (k : String) :
    Option JVal × List (String × JVal) :=
  (m.lookup k, m.filter (fun p => p.1 != k))

/-- Python dict.update with a single key: replace the value in place
when the key exists, otherwise append the entry. -/
def setKey (m : List (String × JVal)) (k : String) (v : JVal) :
    List (String × JVal) :=
  if m.any (fun p => p.1 == k) then
    m.map (fun p => if p.1 == k then (k, v) else p)
  else m ++ [(k, v)]

/-- The backend as seen by data_collect: the contactProfileList query is
keyed by the popped email value (which may be any JSON value or
absent). -/
structure DCBackend where
  contactProfileList : Option JVal → List ContactProfileRec
  upsertResult : DataCollectVars → ContactProfileRec

/-- The mapping data_collect returns. -/
structure DataCollectResult where
  contact_uuid : String
  sales_rep : String
  sales_rep_email : String
deriving DecidableEq

/-- MCPMarketingCollection.data_collect on an already-parsed JSON
dataset (Serializer.json_loads is modelled by taking the parsed object
as input; the claim is scoped to parseable datasets): transform the
dataset, pop the four named fields, inject the configured sales_rep,
query the contact profile by email, and upsert, carrying contactUuid
only when a profile was found and its contact_uuid is truthy.  The
variables of the upsert mutation are factored out here. -/
def dataCollectVarsOf (ds : List (String × JVal)) (st : DCSetting)
    (be : DCBackend) : DataCollectVars :=
  let d0 := transformDataset ds
  let pu := popKey d0 "place_uuid"
  let em := popKey pu.2 "email"
  let fn := popKey em.2 "first_name"
  let ln := popKey fn.2 "last_name"
  let d1 := setKey ln.2 "sales_rep" (.s (st.sales_rep.getD "Marketing Team"))
  let contactUuid : Option String :=
    match be.contactProfileList em.1 with
    | cp :: _ => if cp.contact_uuid != "" then some cp.contact_uuid else none
    | [] => none
  ⟨pu.1, em.1, fn.1, ln.1, d1, contactUuid, "Admin"⟩

/-- MCPMarketingCollection.data_collect: issue the contactProfileList
query on the popped email, issue the upsert with the variables above,
and return the resulting contact_uuid together with the configured
sales_rep and sales_rep_email. -/
def data_collect (ds : List (String × JVal)) (st : DCSetting) (be : DCBackend) :
    DataCollectResult × List GqlCall :=
  let v := dataCollectVarsOf ds st be
  let profile := be.upsertResult v
  (⟨profile.contact_uuid, st.sales_rep.getD "Marketing Team",
    st.sales_rep_email.getD "marketing@company.com"⟩,
   [.contactProfileListQueryJ v.email, .insertUpdateContactProfileData v])

/-- The argument mapping of submit_request; every key may be absent, and
the source indexes all four with square brackets, in the order in which
the variables dict is written. -/
structure SubmitArgs where
  place_uuid : Option String
  contact_uuid : Option String
  request_title : Option String
  request_detail : Option String
deriving DecidableEq

/-- The decamelized contact request record; only request_uuid is read. -/
structure ContactRequestRec where
  request_uuid : String
deriving DecidableEq

/-- The backend as seen by submit_request. -/
structure RequestBackend where
  upsertResult : RequestVars → ContactRequestRec

/-- MCPMarketingCollection.submit_request: build the mutation variables
by raw key lookup (KeyError on the first absent key, before any GraphQL
call), then issue the single insertUpdateContactRequest mutation. -/
def submit_request (a : SubmitArgs) (be : RequestBackend) :
    Except Err ContactRequestRec × List GqlCall :=
  match a.place_uuid with
  | none => (.error (.keyError "place_uuid"), [])
  | some pu =>
    match a.contact_uuid with
    | none => (.error (.keyError "contact_uuid"), [])
    | some cu =>
      match a.request_title with
      | none => (.error (.keyError "request_title"), [])
      | some t =>
        match a.request_detail with
        | none => (.error (.keyError "request_detail"), [])
        | some d =>
          let v : RequestVars := ⟨pu, cu, t, d, "Admin"⟩
          (.ok (be.upsertResult v), [.insertUpdateContactRequest v])

/-- An item of the items argument of place_shopify_draft_order. -/
structure OrderItem where
  variant_id : Option String
  quantity : Option Int
deriving DecidableEq

/-- The first run of decimal digits in a string, as found by
re.search with a one-or-more-digits pattern and .group(): drop
characters up to the first digit, then take the maximal digit run. -/
def firstDigitRun (s : String) : Option String :=
  match s.data.dropWhile (fun c => !c.isDigit) with
  | [] => none
  | c :: cs => some (String.mk (List.takeWhile Char.isDigit (c :: cs)))

/-- The line-item loop of place_shopify_draft_order: skip items with an
absent variant_id, skip items whose variant_id holds no digits, default
quantity to 1, and append in input order. -/
def buildLineItems (items : List OrderItem) : List LineItem :=
  items.foldl (fun acc it =>
    match it.variant_id with
    | none => acc
    | some vid =>
      match firstDigitRun vid with
      | none => acc
      | some d => acc ++ [⟨d, it.quantity.getD 1⟩]) []

/-- An opaque Shopify draft order object; the truthiness check on the
mutation response is modelled by the oracle returning none exactly when
the response holds no (truthy) draft order. -/
structure DraftOrder where
  id : String
deriving DecidableEq

/-- An opaque Shopify customer object, with the same convention. -/
structure Customer where
  id : String
deriving DecidableEq

/-- The shopify_app_engine_graphql backend oracle. -/
structure ShopifyBackend where
  draftOrder : DraftOrderVars → Option DraftOrder
  customer : CustomerVars → Option Customer

/-- MCPMarketingCollection.place_shopify_draft_order: build line items,
issue the createDraftOrder mutation with the endpoint as shop, and
return the draft order from the response or None when absent. -/
def place_shopify_draft_order (contact : Contact)
    (shipping billing : Option Address) (items : Option (List OrderItem))
    (endpoint_id : Option String) (sbe : ShopifyBackend) :
    Except Err (Option DraftOrder) × List GqlCall :=
  let line_items := buildLineItems (items.getD [])
  let v : DraftOrderVars := ⟨endpoint_id, contact.email, line_items, shipping, billing⟩
  (.ok (sbe.draftOrder v), [.createDraftOrder v])

/-- MCPMarketingCollection.get_shopify_customer: first resolve the
contact profile through get_contact_profile (passing the place_uuid of
the address argument), propagating its exception if it raises; only
then build the customer-query variables and query Shopify, returning
the customer or None.  An absent address argument defaults to an empty
dict, which is falsy, so no address sub-dict is sent.  The place_uuid
read off the address argument for the contact-profile call: -/
def addrPlaceUuid (address : Option Address) : Option String :=
  match address with
  | some a => a.place_uuid
  | none => none

/-- The customer-query variables get_shopify_customer assembles: the
endpoint as shop, the contact fields, and the address sub-dict when the
address argument is truthy. -/
def customerVarsOf (contact : Contact) (address : Option Address)
    (endpoint_id : Option String) : CustomerVars :=
  ⟨endpoint_id, contact.email, contact.first_name, contact.last_name,
   contact.phone,
   match address with
   | some a => some (mkCustomerAddress a)
   | none => none⟩

/-- MCPMarketingCollection.get_shopify_customer: first resolve the
contact profile through get_contact_profile (passing the place_uuid of
the address argument as the place), propagating its exception if it
raises; only then query Shopify and return the customer or None. -/
def get_shopify_customer (contact : Contact) (address : Option Address)
    (endpoint_id : Option String) (cbe : ContactBackend) (sbe : ShopifyBackend) :
    Except Err (Option Customer) × List GqlCall :=
  let pr := get_contact_profile contact (some ⟨addrPlaceUuid address⟩) cbe
  match pr.1 with
  | .error e => (.error e, pr.2)
  | .ok _ =>
    let v := customerVarsOf contact address endpoint_id
    (.ok (sbe.customer v), pr.2 ++ [.customerQuery v])

/-- The mutable state read and written by
MCPMarketingCollection._fetch_graphql_schema: the instance endpoint_id
and the schemas dict, keyed by function name alone.  Schema documents
are modelled as strings. -/
structure CacheState where
  endpoint_id : Option String
  schemas : List (String × String)
deriving DecidableEq

/-- MCPMarketingCollection._fetch_graphql_schema: on a cache hit return
the stored schema and leave the state unchanged; on a miss call the
external fetch utility (the fetcher argument, which sees the current
endpoint through the context) once, store the result under the function
name, and return it.  The third component is the list of external fetch
events performed. -/
def fetchGraphqlSchema (fetcher : Option String → String → String)
    (st : CacheState) (fn : String) :
    String × CacheState × List (Option String × String) :=
  match st.schemas.lookup fn with
  | some s => (s, st, [])
  | none =>
    let s := fetcher st.endpoint_id fn
    (s, ⟨st.endpoint_id, (fn, s) :: st.schemas⟩, [(st.endpoint_id, fn)])

/-- A sequence of schema resolutions on one instance: each request sets
the instance endpoint_id (the settable property) and then resolves the
schema for a function name.  Returns the resolved schemas in order and
the concatenated fetch-event trace. -/
def runResolutions (fetcher : Option String → String → String) :
    List (String × String) → CacheState →
    List String × List (Option String × String)
  | [], _ => ([], [])
  | (e, fn) :: rest, st =>
    let step := fetchGraphqlSchema fetcher ⟨some e, st.schemas⟩ fn
    let next := runResolutions fetcher rest step.2.1
    (step.1 :: next.1, step.2.2 ++ next.2)

/-- Modelled from the spec: get_question_group is imported by
src/mcp_marketing_collection/__init__.py but its definition is absent
from src.  The record is modelled from spec section 4.6: a weight, the
bookkeeping fields that are stripped (endpoint_id, question_criteria,
region, audit timestamps and actors), and an opaque retained payload. -/
structure QuestionGroupRec where
  question_group_uuid : String
  weight : Int
  endpoint_id : Option String
  question_criteria : Option String
  region : Option String
  updated_by : Option String
  updated_at : Option String
  created_at : Option String
deriving DecidableEq

/-- Modelled from the spec: the candidate after stripping the
bookkeeping fields and decamelizing the remaining keys. -/
structure QuestionGroupView where
  question_group_uuid : String
  weight : Int
deriving DecidableEq

/-- Modelled from the spec: strip the bookkeeping fields from a
candidate. -/
def stripQuestionGroup (g : QuestionGroupRec) : QuestionGroupView :=
  ⟨g.question_group_uuid, g.weight⟩

/-- Modelled from the spec: the backend responses to the place-scoped
query and to the wildcard-region re-query. -/
structure QGBackend where
  byPlace : String → List QuestionGroupRec
  byWildcard : List QuestionGroupRec

/-- The candidate with the lowest weight (the earliest on ties). -/
def minByWeight (g : QuestionGroupRec) (gs : List QuestionGroupRec) :
    QuestionGroupRec :=
  gs.foldl (fun best c => if c.weight < best.weight then c else best) g

/-- Modelled from the spec: get_question_group (spec section 4.6).
Query question groups by place_uuid; on zero results re-query exactly
once with the wildcard region marker; the spec records that the
current code then indexes into the candidate list, so an empty wildcard
result is an unchecked IndexError, not an explicit error; otherwise
strip the bookkeeping fields and return the lowest-weight candidate. -/
def get_question_group (place_uuid : String) (be : QGBackend) :
    Except Err QuestionGroupView × List GqlCall :=
  let q1 := GqlCall.questionGroupByPlaceQuery place_uuid
  match be.byPlace place_uuid with
  | g :: gs => (.ok (stripQuestionGroup (minByWeight g gs)), [q1])
  | [] =>
    let q2 := GqlCall.questionGroupWildcardQuery place_uuid
    match be.byWildcard with
    | g :: gs => (.ok (stripQuestionGroup (minByWeight g gs)), [q1, q2])
    | [] => (.error .indexError, [q1, q2])

/-- The comparison get_place makes against a stored location match, with
the types lists compared order-insensitively (as equal multisets, which
is what comparing the Python sorts amounts to). -/
def placeSame (args : PlaceArgs) (p : PlaceRec) : Prop :=
  p.business_name = args.business_name ∧ p.phone_number = args.phone_number ∧
  p.website = args.website ∧ (p.types.getD []).Perm (args.types.getD [])

instance placeSame.dec (args : PlaceArgs) (p : PlaceRec) :
    Decidable (placeSame args p) := by
  unfold placeSame
  infer_instance

/-- The insertUpdatePlace variables that get_place submits when a
location match p exists but the compared details differ. -/
def placeUpsertOf (args : PlaceArgs) (r : String) (la lo : Int) (ad : String)
    (p : PlaceRec) : PlaceUpsertVars :=
  ⟨r, la, lo, ad, some p.place_uuid, args.business_name, args.phone_number,
   args.website, args.types.getD [], "Admin"⟩

/-- A stored place for the C1 witness: its details match the witness
arguments up to the order of types. -/
def placeW : PlaceRec := ⟨"p1", some "Biz", none, none, some ["cafe", "bar"]⟩

/-- The C1 witness arguments: a location lookup with the same business
details as placeW, types listed in a different order. -/
def argsW : PlaceArgs :=
  ⟨none, some "us", some 3, some 4, some "addr", some "Biz", none, none,
   some ["bar", "cafe"]⟩

/-- The C1 witness backend: the location query finds placeW. -/
def beW : PlaceBackend :=
  ⟨fun _ => placeW, fun _ => [placeW],
   fun v => ⟨"p1", v.businessName, v.phoneNumber, v.website, some v.types⟩⟩

/-- A stored place for the C1 counterexample, whose types list holds a
duplicate. -/
def placeCx : PlaceRec := ⟨"p1", none, none, none, some ["a", "a"]⟩

/-- The C1 counterexample arguments: identical business details and a
types list that is set-equal, but not multiset-equal, to the stored
one. -/
def argsCx : PlaceArgs :=
  ⟨none, some "r", some 1, some 2, some "addr", none, none, none, some ["a"]⟩

/-- The C1 counterexample backend: the location query finds placeCx. -/
def beCx : PlaceBackend :=
  ⟨fun _ => placeCx, fun _ => [placeCx],
   fun v => ⟨"p1", v.businessName, v.phoneNumber, v.website, some v.types⟩⟩

/-- The C9 witness arguments: no place_uuid and no region. -/
def argsW9 : PlaceArgs :=
  ⟨none, none, some 1, some 2, some "addr", none, none, none, none⟩

/-- The C2 witness contact and stored record: the stored name and place
equal the input. -/
def contactW : Contact := ⟨"a@x.com", some "A", some "B", none⟩

/-- The stored contact profile matched by the C2 witness. -/
def cpW : ContactProfileRec := ⟨"cu1", some "A", some "B", ⟨some "p1"⟩⟩

/-- The C2 witness backend: the email query finds cpW. -/
def beW2 : ContactBackend :=
  ⟨fun _ => [cpW],
   fun v => ⟨v.contactUuid.getD "new", some v.firstName, some v.lastName,
     ⟨v.placeUuid⟩⟩⟩

/-- The C2 counterexample contact: email present, first_name absent. -/
def contactCx2 : Contact := ⟨"a@x.com", none, some "B", none⟩

/-- The stored record found by the C2 counterexample query; its stored
first_name differs from the (absent) input one. -/
def cpCx2 : ContactProfileRec := ⟨"cu1", some "X", some "B", ⟨none⟩⟩

/-- The C2 counterexample backend. -/
def beCx2 : ContactBackend :=
  ⟨fun _ => [cpCx2],
   fun v => ⟨v.contactUuid.getD "new", some v.firstName, some v.lastName,
     ⟨v.placeUuid⟩⟩⟩

/-- The C7 contact: only the email key, as the declared tool input
schema allows (its required list inside contact is exactly email). -/
def contactC7 : Contact := ⟨"b@x.com", none, none, none⟩

/-- A second C7 contact: email and first_name, last_name omitted. -/
def contactC7b : Contact := ⟨"b@x.com", some "A", none, none⟩

/-- The C7 backend: no record found by email, so the handler is on the
create path of its query-then-compare-then-maybe-upsert behavior. -/
def beC7 : ContactBackend :=
  ⟨fun _ => [],
   fun v => ⟨"new", some v.firstName, some v.lastName, ⟨v.placeUuid⟩⟩⟩

/-- The C8 arguments: place_uuid absent, the other three present. -/
def argsC8 : SubmitArgs := ⟨none, some "cu", some "title", some "detail"⟩

/-- The C8 backend. -/
def beC8 : RequestBackend := ⟨fun _ => ⟨"req1"⟩⟩

/-- The C6 backend: both the place-scoped query and the wildcard
re-query return zero results. -/
def beC6 : QGBackend := ⟨fun _ => [], []⟩

/-- The per-item line-item contribution: no line item when variant_id is
absent or holds no digits, otherwise the first digit run with the
quantity defaulted to 1. -/
def lineItemOf (it : OrderItem) : Option LineItem :=
  it.variant_id.bind (fun vid =>
    (firstDigitRun vid).map (fun d => ⟨d, it.quantity.getD 1⟩))

/-- The C10 witness backend for the marketing side: no stored profile,
so the profile call upserts. -/
def cbeW10 : ContactBackend :=
  ⟨fun _ => [],
   fun v => ⟨"cu9", some v.firstName, some v.lastName, ⟨v.placeUuid⟩⟩⟩

/-- The C10 witness Shopify backend: the customer query finds a
customer. -/
def sbeW10 : ShopifyBackend := ⟨fun _ => none, fun _ => some ⟨"cust1"⟩⟩

/-- The C3 witness dataset: the four named fields, a list-valued tags
field and a null-valued note field. -/
def dsW3 : List (String × JVal) :=
  [("place_uuid", .s "p1"), ("email", .s "a@x.com"), ("first_name", .s "A"),
   ("last_name", .s "B"), ("tags", .arr ["x", "y"]), ("note", .null)]

/-- The C3 witness setting: configured sales rep and email. -/
def stW3 : DCSetting := ⟨some "Rep", some "rep@x.com"⟩

/-- The C3 witness backend: no profile found by email. -/
def beW3 : DCBackend := ⟨fun _ => [], fun _ => ⟨"cuX", none, none, ⟨none⟩⟩⟩

/-- The C3 counterexample dataset: just an email. -/
def dsCx3 : List (String × JVal) := [("email", JVal.s "a@x.com")]

/-- The profile found by the C3 counterexample query: its stored
contact_uuid is the empty string, which is falsy in Python. -/
def cpCx3 : ContactProfileRec := ⟨"", none, none, ⟨none⟩⟩

/-- The C3 counterexample backend: the email query finds cpCx3. -/
def beCx3 : DCBackend := ⟨fun _ => [cpCx3], fun _ => cpCx3⟩

/-- The C5 fetcher: returns a schema document that records the endpoint
it was fetched under, making endpoint mixups observable. -/
def fetcherW : Option String → String → String := fun e fn => e.getD "" ++ fn

/-- Two string lists have equal Python sorts exactly when one is a
permutation (an equal multiset) of the other. -/
lemma pySorted_eq_iff_perm (a b : List String) :
    pySorted a = pySorted b ↔ a.Perm b := by
  constructor
  · intro h
    have ha : (pySorted a).Perm a := List.perm_insertionSort _ a
    have hb : (pySorted b).Perm b := List.perm_insertionSort _ b
    rw [h] at ha
    exact ha.symm.trans hb
  · intro h
    exact List.eq_of_perm_of_sorted
      ((List.perm_insertionSort _ a).trans (h.trans (List.perm_insertionSort _ b).symm))
      (List.sorted_insertionSort _ a) (List.sorted_insertionSort _ b)

/-- C1 (amended): for a get_place call without place_uuid whose location
query finds an existing place, the handler issues the insertUpdatePlace
mutation if and only if business_name, phone_number, website, or the
order-insensitive multiset of types differs between the stored place and
the input; when none differ it returns the stored record unchanged with
only the location query issued, and when some field differs it issues
exactly one upsert mutation carrying the existing place UUID, all
updated fields and updatedBy Admin. -/
theorem C1_get_place_location_upsert_iff_diff
    (args : PlaceArgs) (be : PlaceBackend)
    (r : String) (la lo : Int) (ad : String)
    (h0 : args.place_uuid = none)
    (hr : args.region = some r) (hla : args.latitude = some la)
    (hlo : args.longitude = some lo) (had : args.address = some ad)
    (htr : r ≠ "") (htla : la ≠ 0) (htlo : lo ≠ 0) (htad : ad ≠ "")
    (p : PlaceRec) (rest : List PlaceRec)
    (hfound : be.placeList ⟨r, la, lo, ad⟩ = p :: rest) :
    ((get_place args be).2.any GqlCall.isMutation = true ↔ ¬ placeSame args p)
    ∧ (placeSame args p →
        get_place args be = (.ok p, [.placeListQuery ⟨r, la, lo, ad⟩]))
    ∧ (¬ placeSame args p →
        get_place args be =
          (.ok (be.upsertResult (placeUpsertOf args r la lo ad p)),
           [.placeListQuery ⟨r, la, lo, ad⟩,
            .insertUpdatePlace (placeUpsertOf args r la lo ad p)])) := by
  have hb : (r != "" && la != 0 && lo != 0 && ad != "") = true := by
    simp [bne_iff_ne, htr, htla, htlo, htad]
  have hcond : (p.business_name == args.business_name
      && p.phone_number == args.phone_number
      && p.website == args.website
      && (pySorted (p.types.getD []) == pySorted (args.types.getD []))) = true
      ↔ placeSame args p := by
    simp [Bool.and_eq_true, beq_iff_eq, pySorted_eq_iff_perm, placeSame, and_assoc]
  by_cases hs : placeSame args p
  · have hc := hcond.mpr hs
    have hres : get_place args be = (.ok p, [.placeListQuery ⟨r, la, lo, ad⟩]) := by
      simp [get_place, h0, get_place_loc, hr, hla, hlo, had, hb, hfound, hc]
    refine ⟨?_, fun _ => hres, fun h => absurd hs h⟩
    rw [hres]
    simp [GqlCall.isMutation, hs]
  · have hc : (p.business_name == args.business_name
        && p.phone_number == args.phone_number
        && p.website == args.website
        && (pySorted (p.types.getD []) == pySorted (args.types.getD []))) = false := by
      rw [← Bool.not_eq_true, hcond]
      exact fun h => hs h
    have hres : get_place args be =
        (.ok (be.upsertResult (placeUpsertOf args r la lo ad p)),
         [.placeListQuery ⟨r, la, lo, ad⟩,
          .insertUpdatePlace (placeUpsertOf args r la lo ad p)]) := by
      simp [get_place, h0, get_place_loc, hr, hla, hlo, had, hb, hfound, hc,
        placeUpsertOf]
    refine ⟨?_, fun h => absurd h hs, fun _ => hres⟩
    rw [hres]
    simp [GqlCall.isMutation, hs]

/-- C1 witness: at the concrete matching input, get_place returns the
stored record with only the location query issued. -/
theorem C1_witness :
    get_place argsW beW = (.ok placeW, [.placeListQuery ⟨"us", 3, 4, "addr"⟩]) :=
  (C1_get_place_location_upsert_iff_diff argsW beW "us" 3 4 "addr"
    rfl rfl rfl rfl rfl (by decide) (by decide) (by decide) (by decide)
    placeW [] rfl).2.1 (by decide)

/-- C1 counterexample: the location query finds a place whose
business_name, phone_number and website equal the input and whose set of
types equals the input set of types, yet get_place issues a mutation,
because the code compares the sorted lists and the stored list holds a
duplicate.  This refutes C1 as stated (mutation if and only if a
compared field, with types taken as an order-insensitive set,
differs). -/
theorem C1_counterexample :
    beCx.placeList ⟨"r", 1, 2, "addr"⟩ = [placeCx]
    ∧ placeCx.business_name = argsCx.business_name
    ∧ placeCx.phone_number = argsCx.phone_number
    ∧ placeCx.website = argsCx.website
    ∧ (placeCx.types.getD []).toFinset = (argsCx.types.getD []).toFinset
    ∧ (get_place argsCx beCx).2.any GqlCall.isMutation = true :=
  ⟨rfl, rfl, rfl, rfl, by decide, by decide⟩

/-- C9: for every get_place call in which place_uuid is absent and at
least one of region, latitude, longitude or address is missing, the
handler fails with the explicit validation assert (message Missing
required arguments) and issues no GraphQL call at all. -/
theorem C9_get_place_missing_location_validation
    (args : PlaceArgs) (be : PlaceBackend)
    (h0 : args.place_uuid = none)
    (h : args.region = none ∨ args.latitude = none ∨ args.longitude = none
      ∨ args.address = none) :
    get_place args be = (.error (.assertionError "Missing required arguments"), []) := by
  obtain ⟨pu, reg, lat, lon, addr, bn, pn, w, t⟩ := args
  simp only at h0 h
  subst h0
  rcases h with h | h | h | h
  · subst h
    simp [get_place, get_place_loc]
  · subst h
    cases reg <;> simp [get_place, get_place_loc]
  · subst h
    cases reg <;> cases lat <;> simp [get_place, get_place_loc]
  · subst h
    cases reg <;> cases lat <;> cases lon <;> simp [get_place, get_place_loc]

/-- C9 witness: at the concrete input missing region, get_place fails
with the validation assert and an empty call trace. -/
theorem C9_witness :
    get_place argsW9 beW = (.error (.assertionError "Missing required arguments"), []) :=
  C9_get_place_missing_location_validation argsW9 beW rfl (Or.inl rfl)

/-- C2 (amended): for every get_contact_profile call whose contact
mapping contains first_name and last_name, the handler queries contact
profiles by email; if a record is found and its stored first_name,
last_name and associated place_uuid all equal the input values, the
stored record is returned as-is with no mutation; otherwise exactly one
insertUpdateContactProfile upsert mutation is issued with updatedBy
Admin, carrying the existing contact_uuid when a record was found. -/
theorem C2_get_contact_profile_upsert
    (contact : Contact) (placeArg : Option ContactPlaceArg) (be : ContactBackend)
    (fn ln : String)
    (hfn : contact.first_name = some fn) (hln : contact.last_name = some ln) :
    (∀ cp rest, be.contactProfileList contact.email = cp :: rest →
      ((cp.first_name = some fn ∧ cp.last_name = some ln ∧
          cp.place.place_uuid = (placeArg.getD ⟨none⟩).place_uuid) →
        get_contact_profile contact placeArg be =
          (.ok cp, [.contactProfileListQuery contact.email]))
      ∧ (¬ (cp.first_name = some fn ∧ cp.last_name = some ln ∧
          cp.place.place_uuid = (placeArg.getD ⟨none⟩).place_uuid) →
        get_contact_profile contact placeArg be =
          (.ok (be.upsertResult ⟨contact.email, some cp.contact_uuid, fn, ln,
             (placeArg.getD ⟨none⟩).place_uuid, "Admin"⟩),
           [.contactProfileListQuery contact.email,
            .insertUpdateContactProfile ⟨contact.email, some cp.contact_uuid, fn, ln,
              (placeArg.getD ⟨none⟩).place_uuid, "Admin"⟩])))
    ∧ (be.contactProfileList contact.email = [] →
        get_contact_profile contact placeArg be =
          (.ok (be.upsertResult ⟨contact.email, none, fn, ln,
             (placeArg.getD ⟨none⟩).place_uuid, "Admin"⟩),
           [.contactProfileListQuery contact.email,
            .insertUpdateContactProfile ⟨contact.email, none, fn, ln,
              (placeArg.getD ⟨none⟩).place_uuid, "Admin"⟩])) := by
  constructor
  · intro cp rest hlist
    constructor
    · intro hsame
      have hc : (cp.first_name == some fn && cp.last_name == some ln
          && cp.place.place_uuid == (placeArg.getD ⟨none⟩).place_uuid) = true := by
        simp [Bool.and_eq_true, beq_iff_eq, hsame.1, hsame.2.1, hsame.2.2]
      simp [get_contact_profile, hlist, hfn, hln, hc]
    · intro hdiff
      have hc : (cp.first_name == some fn && cp.last_name == some ln
          && cp.place.place_uuid == (placeArg.getD ⟨none⟩).place_uuid) = false := by
        rw [← Bool.not_eq_true]
        intro hc
        apply hdiff
        simpa [Bool.and_eq_true, beq_iff_eq, and_assoc] using hc
      simp [get_contact_profile, hlist, hfn, hln, hc]
  · intro hlist
    simp [get_contact_profile, hlist, hfn, hln]

/-- C2 witness: at the concrete unchanged input, get_contact_profile
returns the stored record with only the email query issued. -/
theorem C2_witness :
    get_contact_profile contactW (some ⟨some "p1"⟩) beW2 =
      (.ok cpW, [.contactProfileListQuery "a@x.com"]) :=
  ((C2_get_contact_profile_upsert contactW (some ⟨some "p1"⟩) beW2 "A" "B"
    rfl rfl).1 cpW [] rfl).1 (by decide)

/-- C2 counterexample: a record is found and its stored fields do not
all equal the input, yet no upsert mutation is issued and no record is
returned: the handler raises KeyError on the absent first_name key.
This refutes C2 as stated for calls whose contact omits first_name. -/
theorem C2_counterexample :
    beCx2.contactProfileList "a@x.com" = [cpCx2]
    ∧ get_contact_profile contactCx2 none beCx2 =
        (.error (.keyError "first_name"), [.contactProfileListQuery "a@x.com"]) :=
  ⟨rfl, rfl⟩

/-- C7: the code faults on schema-optional fields.  With only email
supplied (first_name and last_name omitted), get_contact_profile raises
KeyError on first_name instead of completing; with last_name omitted it
raises KeyError on last_name.  In both cases the query was already
issued and no upsert is reached. -/
theorem C7_get_contact_profile_faults_without_names :
    get_contact_profile contactC7 none beC7 =
      (.error (.keyError "first_name"), [.contactProfileListQuery "b@x.com"])
    ∧ get_contact_profile contactC7b none beC7 =
      (.error (.keyError "last_name"), [.contactProfileListQuery "b@x.com"]) :=
  ⟨rfl, rfl⟩

/-- C8: with place_uuid absent, submit_request fails with the raw
KeyError of the dict lookup (a generic key fault, not a structured
validation error) and issues no mutation (empty call trace).  The
missing-field part and the no-mutation part of the claim hold; the
validation-error part does not. -/
theorem C8_submit_request_keyerror_no_mutation :
    submit_request argsC8 beC8 = (.error (.keyError "place_uuid"), []) := rfl

/-- C6: when the place-scoped query returns zero results the handler
re-queries exactly once with the wildcard marker (both queries appear in
the trace), and when the wildcard query also returns zero results the
spec-modelled code fails with the unchecked IndexError, not with an
explicit no-question-group-available error. -/
theorem C6_question_group_empty_wildcard_index_fault :
    get_question_group "p0" beC6 =
      (.error .indexError,
       [.questionGroupByPlaceQuery "p0", .questionGroupWildcardQuery "p0"]) := rfl

/-- The append loop of place_shopify_draft_order computes exactly the
per-item filterMap of lineItemOf, in input order. -/
lemma buildLineItems_eq_filterMap (items : List OrderItem) :
    buildLineItems items = items.filterMap lineItemOf := by
  suffices h : ∀ (l : List OrderItem) (acc : List LineItem),
      l.foldl (fun acc it =>
        match it.variant_id with
        | none => acc
        | some vid =>
          match firstDigitRun vid with
          | none => acc
          | some d => acc ++ [⟨d, it.quantity.getD 1⟩]) acc
        = acc ++ l.filterMap lineItemOf by
    simpa [buildLineItems] using h items []
  intro l
  induction l with
  | nil => intro acc; simp
  | cons it rest ih =>
    intro acc
    cases hv : it.variant_id with
    | none => simp [List.foldl_cons, hv, ih, lineItemOf]
    | some vid =>
      cases hd : firstDigitRun vid with
      | none => simp [List.foldl_cons, hv, hd, ih, lineItemOf]
      | some d => simp [List.foldl_cons, hv, hd, ih, lineItemOf]

/-- C4: every place_shopify_draft_order call issues exactly one
createDraftOrder mutation whose line items are the input items mapped
through digit extraction: each item with a variant_id holding digits
contributes its first digit run and its quantity defaulted to 1, and
items whose variant_id is absent or digit-free are omitted; the handler
returns the draft order from the mutation response, which is None when
the response holds no draft order.  The final conjunct checks the digit
extraction on a Shopify global id. -/
theorem C4_place_shopify_draft_order_line_items
    (contact : Contact) (shipping billing : Option Address)
    (items : Option (List OrderItem)) (endpoint : Option String)
    (sbe : ShopifyBackend) :
    place_shopify_draft_order contact shipping billing items endpoint sbe =
      (.ok (sbe.draftOrder ⟨endpoint, contact.email,
         (items.getD []).filterMap lineItemOf, shipping, billing⟩),
       [.createDraftOrder ⟨endpoint, contact.email,
         (items.getD []).filterMap lineItemOf, shipping, billing⟩])
    ∧ firstDigitRun "gid://shopify/ProductVariant/12345" = some "12345" :=
  ⟨by simp [place_shopify_draft_order, buildLineItems_eq_filterMap], by decide⟩

/-- C10: every get_shopify_customer call resolves the contact profile
first, through get_contact_profile with the supplied contact and the
place_uuid of the address argument; when that completes, the Shopify
customer query is issued after the whole contact-profile call trace
(which may contain the profile upsert mutation) and the handler returns
the customer from the response, which is None when absent; when the
contact-profile call raises, its error propagates and no customer query
is issued. -/
theorem C10_get_shopify_customer_profile_first
    (contact : Contact) (address : Option Address) (endpoint : Option String)
    (cbe : ContactBackend) (sbe : ShopifyBackend) :
    (∀ p tr,
      get_contact_profile contact (some ⟨addrPlaceUuid address⟩) cbe = (.ok p, tr) →
      get_shopify_customer contact address endpoint cbe sbe =
        (.ok (sbe.customer (customerVarsOf contact address endpoint)),
         tr ++ [.customerQuery (customerVarsOf contact address endpoint)]))
    ∧ (∀ e tr,
      get_contact_profile contact (some ⟨addrPlaceUuid address⟩) cbe = (.error e, tr) →
      get_shopify_customer contact address endpoint cbe sbe = (.error e, tr)) := by
  constructor
  · intro p tr h
    simp [get_shopify_customer, h]
  · intro e tr h
    simp [get_shopify_customer, h]

/-- C10 witness: at a concrete input the profile upsert trace precedes
the customer query and the Shopify customer is returned. -/
theorem C10_witness :
    get_shopify_customer contactW none (some "shop1") cbeW10 sbeW10 =
      (.ok (some ⟨"cust1"⟩),
       [.contactProfileListQuery "a@x.com",
        .insertUpdateContactProfile ⟨"a@x.com", none, "A", "B", none, "Admin"⟩,
        .customerQuery (customerVarsOf contactW none (some "shop1"))]) :=
  (C10_get_shopify_customer_profile_first contactW none (some "shop1")
    cbeW10 sbeW10).1
    ⟨"cu9", some "A", some "B", ⟨none⟩⟩
    [.contactProfileListQuery "a@x.com",
     .insertUpdateContactProfile ⟨"a@x.com", none, "A", "B", none, "Admin"⟩]
    rfl

/-- Members of a transformed dataset are never null and never lists. -/
lemma transformDataset_mem {m : List (String × JVal)} {p : String × JVal}
    (hp : p ∈ transformDataset m) :
    p.2 ≠ JVal.null ∧ ∀ xs, p.2 ≠ JVal.arr xs := by
  unfold transformDataset at hp
  rcases List.mem_map.mp hp with ⟨q, hq, rfl⟩
  have hq2 : (q.2 != JVal.null) = true := (List.mem_filter.mp hq).2
  cases h2 : q.2 <;> simp [h2] at hq2 ⊢

/-- A list-valued entry of the dataset survives the transform as its
comma-space join. -/
lemma transformDataset_arr_mem {m : List (String × JVal)} {k : String}
    {xs : List String} (h : (k, JVal.arr xs) ∈ m) :
    (k, JVal.s (joinList xs)) ∈ transformDataset m := by
  unfold transformDataset
  exact List.mem_map.mpr
    ⟨(k, JVal.arr xs), List.mem_filter.mpr ⟨h, by simp [bne_iff_ne]⟩, rfl⟩

/-- Members of a popped dataset were members before and avoid the popped
key. -/
lemma popKey_mem {m : List (String × JVal)} {k : String} {p : String × JVal}
    (hp : p ∈ (popKey m k).2) : p ∈ m ∧ p.1 ≠ k := by
  have hp2 : p ∈ m.filter (fun q => q.1 != k) := hp
  have h := List.mem_filter.mp hp2
  exact ⟨h.1, by simpa [bne_iff_ne] using h.2⟩

/-- An entry with a different key survives a pop. -/
lemma popKey_mem_of_ne {m : List (String × JVal)} {k : String}
    {p : String × JVal} (hp : p ∈ m) (hne : p.1 ≠ k) : p ∈ (popKey m k).2 :=
  List.mem_filter.mpr ⟨hp, by simp [bne_iff_ne, hne]⟩

/-- The written entry is a member after a dict update. -/
lemma setKey_self_mem (m : List (String × JVal)) (k : String) (v : JVal) :
    (k, v) ∈ setKey m k v := by
  unfold setKey
  split
  · rename_i h
    rcases List.any_eq_true.mp h with ⟨q, hq, hqk⟩
    exact List.mem_map.mpr ⟨q, hq, by simp [hqk]⟩
  · exact List.mem_append.mpr (Or.inr (by simp))

/-- An entry with a different key survives a dict update unchanged. -/
lemma setKey_mem_of_ne {m : List (String × JVal)} {k : String} {v : JVal}
    {p : String × JVal} (hp : p ∈ m) (hne : p.1 ≠ k) : p ∈ setKey m k v := by
  unfold setKey
  split
  · exact List.mem_map.mpr ⟨p, hp, by simp [hne]⟩
  · exact List.mem_append.mpr (Or.inl hp)

/-- Members after a dict update are the written entry or prior entries
with a different key. -/
lemma setKey_mem {m : List (String × JVal)} {k : String} {v : JVal}
    {p : String × JVal} (hp : p ∈ setKey m k v) :
    p = (k, v) ∨ (p ∈ m ∧ p.1 ≠ k) := by
  unfold setKey at hp
  split at hp
  · rcases List.mem_map.mp hp with ⟨q, hq, rfl⟩
    by_cases hqk : q.1 = k
    · left
      simp [hqk]
    · right
      constructor
      · simpa [hqk] using hq
      · simp [hqk]
  · rename_i hany
    rcases List.mem_append.mp hp with h | h
    · right
      refine ⟨h, fun hk => ?_⟩
      apply hany
      exact List.any_eq_true.mpr ⟨p, h, by simp [hk]⟩
    · left
      simpa using h

/-- C3 (amended): for every data_collect call on a parsed dataset, the
handler issues one query and one upsert mutation; the submitted data
payload holds no null values, no list values (lists were joined with a
comma and a space) and none of the four extracted keys; the configured
sales_rep is injected into it; the mutation carries the existing
contact_uuid when a profile is found by email and its stored
contact_uuid is truthy (non-empty), and carries none when no profile is
found; and the returned sales_rep and sales_rep_email are the configured
values, independent of the input dataset. -/
theorem C3_data_collect_transform_and_config
    (ds : List (String × JVal)) (st : DCSetting) (be : DCBackend) :
    (data_collect ds st be).2 =
      [.contactProfileListQueryJ (dataCollectVarsOf ds st be).email,
       .insertUpdateContactProfileData (dataCollectVarsOf ds st be)]
    ∧ (∀ p ∈ (dataCollectVarsOf ds st be).data,
        p.2 ≠ JVal.null ∧ (∀ xs, p.2 ≠ JVal.arr xs)
        ∧ p.1 ≠ "place_uuid" ∧ p.1 ≠ "email"
        ∧ p.1 ≠ "first_name" ∧ p.1 ≠ "last_name")
    ∧ ("sales_rep", JVal.s (st.sales_rep.getD "Marketing Team"))
        ∈ (dataCollectVarsOf ds st be).data
    ∧ (∀ k xs, (k, JVal.arr xs) ∈ ds → k ≠ "place_uuid" → k ≠ "email" →
        k ≠ "first_name" → k ≠ "last_name" → k ≠ "sales_rep" →
        (k, JVal.s (joinList xs)) ∈ (dataCollectVarsOf ds st be).data)
    ∧ (dataCollectVarsOf ds st be).updatedBy = "Admin"
    ∧ (∀ cp rest,
        be.contactProfileList (dataCollectVarsOf ds st be).email = cp :: rest →
        cp.contact_uuid ≠ "" →
        (dataCollectVarsOf ds st be).contactUuid = some cp.contact_uuid)
    ∧ (be.contactProfileList (dataCollectVarsOf ds st be).email = [] →
        (dataCollectVarsOf ds st be).contactUuid = none)
    ∧ (data_collect ds st be).1.contact_uuid
        = (be.upsertResult (dataCollectVarsOf ds st be)).contact_uuid
    ∧ (data_collect ds st be).1.sales_rep = st.sales_rep.getD "Marketing Team"
    ∧ (data_collect ds st be).1.sales_rep_email
        = st.sales_rep_email.getD "marketing@company.com" := by
  have hdata : (dataCollectVarsOf ds st be).data
      = setKey (popKey (popKey (popKey (popKey (transformDataset ds)
          "place_uuid").2 "email").2 "first_name").2 "last_name").2
        "sales_rep" (JVal.s (st.sales_rep.getD "Marketing Team")) := rfl
  have hcu : (dataCollectVarsOf ds st be).contactUuid =
      match be.contactProfileList (dataCollectVarsOf ds st be).email with
      | cp :: _ => if cp.contact_uuid != "" then some cp.contact_uuid else none
      | [] => none := rfl
  refine ⟨rfl, ?_, ?_, ?_, rfl, ?_, ?_, rfl, rfl, rfl⟩
  · intro p hp
    rw [hdata] at hp
    rcases setKey_mem hp with rfl | ⟨hp4, _⟩
    · refine ⟨by simp, by simp, by simp, by simp, by simp, by simp⟩
    · have h4 := popKey_mem hp4
      have h3 := popKey_mem h4.1
      have h2 := popKey_mem h3.1
      have h1 := popKey_mem h2.1
      have ht := transformDataset_mem h1.1
      exact ⟨ht.1, ht.2, h1.2, h2.2, h3.2, h4.2⟩
  · rw [hdata]
    exact setKey_self_mem _ _ _
  · intro k xs hmem h1 h2 h3 h4 h5
    rw [hdata]
    exact setKey_mem_of_ne
      (popKey_mem_of_ne (popKey_mem_of_ne (popKey_mem_of_ne (popKey_mem_of_ne
        (transformDataset_arr_mem hmem) h1) h2) h3) h4) h5
  · intro cp rest hlist hne
    rw [hcu, hlist]
    simp [bne_iff_ne, hne]
  · intro hlist
    rw [hcu, hlist]

/-- C3 witness: on the concrete dataset, tags is submitted as the joined
string and the return carries the configured sales rep values. -/
theorem C3_witness :
    ("tags", JVal.s "x, y") ∈ (dataCollectVarsOf dsW3 stW3 beW3).data
    ∧ (data_collect dsW3 stW3 beW3).1.sales_rep = "Rep"
    ∧ (data_collect dsW3 stW3 beW3).1.sales_rep_email = "rep@x.com" := by
  obtain ⟨c1, c2, c3, c4, c5, c6, c7, c8, c9, c10⟩ :=
    C3_data_collect_transform_and_config dsW3 stW3 beW3
  refine ⟨?_, c9, c10⟩
  exact c4 "tags" ["x", "y"] (by decide) (by decide) (by decide) (by decide)
    (by decide) (by decide)

/-- C3 counterexample: a profile is found by email, yet the upsert
variables carry no contactUuid, because the code guards the carry with
Python truthiness and the stored contact_uuid is empty.  This refutes
C3 as stated (carries the existing contact_uuid whenever a profile is
found by email). -/
theorem C3_counterexample :
    beCx3.contactProfileList (dataCollectVarsOf dsCx3 ⟨none, none⟩ beCx3).email
      = [cpCx3]
    ∧ (dataCollectVarsOf dsCx3 ⟨none, none⟩ beCx3).contactUuid = none :=
  ⟨rfl, rfl⟩

/-- A cache hit returns the stored schema, leaves the state unchanged
and performs no external fetch. -/
lemma fetchGraphqlSchema_hit (fetcher : Option String → String → String)
    (st : CacheState) (fn s : String) (h : st.schemas.lookup fn = some s) :
    fetchGraphqlSchema fetcher st fn = (s, st, []) := by
  simp [fetchGraphqlSchema, h]

/-- A cache miss fetches once with the current endpoint and stores the
result under the function name. -/
lemma fetchGraphqlSchema_miss (fetcher : Option String → String → String)
    (st : CacheState) (fn : String) (h : st.schemas.lookup fn = none) :
    fetchGraphqlSchema fetcher st fn =
      (fetcher st.endpoint_id fn,
       ⟨st.endpoint_id, (fn, fetcher st.endpoint_id fn) :: st.schemas⟩,
       [(st.endpoint_id, fn)]) := by
  simp [fetchGraphqlSchema, h]

/-- Over any resolution sequence, the number of external fetches for a
given function name is one when the name is requested and not already
cached, and zero otherwise, independently of the endpoints of the
requests. -/
lemma runResolutions_fetch_count (fetcher : Option String → String → String) :
    ∀ (reqs : List (String × String)) (st : CacheState) (fn : String),
      ((runResolutions fetcher reqs st).2.filter (fun ev => ev.2 == fn)).length =
        if st.schemas.lookup fn = none ∧ fn ∈ reqs.map Prod.snd then 1 else 0 := by
  intro reqs
  induction reqs with
  | nil =>
    intro st fn
    simp [runResolutions]
  | cons req rest ih =>
    intro st fn
    obtain ⟨e, fn2⟩ := req
    cases hl : List.lookup fn2 st.schemas with
    | some s =>
      have hstep := fetchGraphqlSchema_hit fetcher ⟨some e, st.schemas⟩ fn2 s hl
      simp only [runResolutions, hstep, List.nil_append]
      rw [ih]
      by_cases hfn : fn = fn2
      · subst hfn
        simp [hl]
      · have hmem : (fn ∈ List.map Prod.snd ((e, fn2) :: rest))
            = (fn ∈ List.map Prod.snd rest) := by
          simp [hfn]
        simp only [hmem]
    | none =>
      have hstep := fetchGraphqlSchema_miss fetcher ⟨some e, st.schemas⟩ fn2 hl
      simp only [runResolutions, hstep, List.singleton_append]
      rw [List.filter_cons]
      by_cases hfn : fn = fn2
      · subst hfn
        have hnew : List.lookup fn ((fn, fetcher (some e) fn) :: st.schemas)
            = some (fetcher (some e) fn) := by
          simp [List.lookup]
        simp [ih, hnew, hl]
      · have hne2 : (((some e, fn2) : Option String × String).2 == fn) = false := by
          simp [Ne.symm hfn]
        have hb : (fn == fn2) = false := by
          simp [hfn]
        have hnew : List.lookup fn ((fn2, fetcher (some e) fn2) :: st.schemas)
            = List.lookup fn st.schemas := by
          simp [List.lookup, hb]
        have hmem : (fn ∈ List.map Prod.snd ((e, fn2) :: rest))
            = (fn ∈ List.map Prod.snd rest) := by
          simp [hfn]
        simp only [hne2, if_neg, Bool.false_eq_true, not_false_iff, ih, hnew, hmem]

/-- Once a schema is cached for a function name, every resolution of
that name in any subsequent sequence returns the stored value, whatever
endpoints the requests use. -/
lemma runResolutions_cached (fetcher : Option String → String → String) :
    ∀ (reqs : List (String × String)) (st : CacheState) (fn s : String),
      st.schemas.lookup fn = some s →
      ∀ x ∈ (runResolutions fetcher reqs st).1.zip reqs, x.2.2 = fn → x.1 = s := by
  intro reqs
  induction reqs with
  | nil =>
    intro st fn s hs x hx
    simp [runResolutions] at hx
  | cons req rest ih =>
    intro st fn s hs x hx hxfn
    obtain ⟨e, fn2⟩ := req
    cases hl : List.lookup fn2 st.schemas with
    | some s2 =>
      have hstep := fetchGraphqlSchema_hit fetcher ⟨some e, st.schemas⟩ fn2 s2 hl
      rw [runResolutions] at hx
      simp only [hstep, List.zip_cons_cons] at hx
      rcases List.mem_cons.mp hx with rfl | hx2
      · simp only at hxfn
        subst hxfn
        rw [hl] at hs
        exact Option.some_inj.mp hs
      · exact ih ⟨some e, st.schemas⟩ fn s hs x hx2 hxfn
    | none =>
      have hstep := fetchGraphqlSchema_miss fetcher ⟨some e, st.schemas⟩ fn2 hl
      rw [runResolutions] at hx
      simp only [hstep, List.zip_cons_cons] at hx
      rcases List.mem_cons.mp hx with rfl | hx2
      · simp only at hxfn
        subst hxfn
        rw [hl] at hs
        cases hs
      · refine ih ⟨some e, (fn2, fetcher (some e) fn2) :: st.schemas⟩ fn s ?_ x hx2 hxfn
        have hfn : (fn == fn2) = false := by
          by_cases h : fn = fn2
          · subst h
            rw [hl] at hs
            cases hs
          · simp [h]
        simp [List.lookup, hfn, hs]

/-- C5 (amended): the schema cache is keyed by the backend function
name alone, per collection instance: a cache hit returns the stored
schema with no refetch and no state change; a miss fetches exactly once
with the instance endpoint current at that moment and stores the result
for the process lifetime (no TTL, no invalidation); over any resolution
sequence each function name is fetched at most once — the first
resolution fetches and every later resolution of the same name returns
the stored schema, even when the instance endpoint has changed in
between. -/
theorem C5_schema_cache_keyed_by_function_name
    (fetcher : Option String → String → String) :
    (∀ st fn s, st.schemas.lookup fn = some s →
        fetchGraphqlSchema fetcher st fn = (s, st, []))
    ∧ (∀ st fn, st.schemas.lookup fn = none →
        fetchGraphqlSchema fetcher st fn =
          (fetcher st.endpoint_id fn,
           ⟨st.endpoint_id, (fn, fetcher st.endpoint_id fn) :: st.schemas⟩,
           [(st.endpoint_id, fn)]))
    ∧ (∀ reqs st fn,
        ((runResolutions fetcher reqs st).2.filter (fun ev => ev.2 == fn)).length =
          if st.schemas.lookup fn = none ∧ fn ∈ reqs.map Prod.snd then 1 else 0)
    ∧ (∀ reqs st fn s, st.schemas.lookup fn = some s →
        ∀ x ∈ (runResolutions fetcher reqs st).1.zip reqs, x.2.2 = fn → x.1 = s) :=
  ⟨fun st fn s h => fetchGraphqlSchema_hit fetcher st fn s h,
   fun st fn h => fetchGraphqlSchema_miss fetcher st fn h,
   runResolutions_fetch_count fetcher,
   runResolutions_cached fetcher⟩

/-- C5 witness: with the endpoint changed to B after a schema for
function f was cached under endpoint A, resolution returns the stored
schema Af with no fetch and no state change. -/
theorem C5_witness :
    fetchGraphqlSchema fetcherW ⟨some "B", [("f", "Af")]⟩ "f" =
      ("Af", ⟨some "B", [("f", "Af")]⟩, []) :=
  (C5_schema_cache_keyed_by_function_name fetcherW).1
    ⟨some "B", [("f", "Af")]⟩ "f" "Af" rfl

/-- C5 counterexample: two resolutions of the same function name under
distinct endpoints A and B.  The claim as stated keys the cache by the
pair of name and endpoint, so the second resolution would be a first
resolution for its identity and would fetch (two fetch events, second
result Bf).  The code performs a single fetch, under A, and the second
resolution returns the schema fetched under A. -/
theorem C5_counterexample :
    runResolutions fetcherW [("A", "f"), ("B", "f")] ⟨none, []⟩ =
      (["Af", "Af"], [(some "A", "f")]) := rfl

end MCPMarketing

